import Mathlib

/-!
Verification of the NoteFlow playback engine against its specification.

The definitions below are a shallow embedding of the source:
  * `AudioEngine.playTone` / `AudioEngine.playChord` (tone synthesis),
  * the `MusicPlayer` scheduler (`playFrame`, `handlePlayPause`, `handleStop`,
    the speed buttons, and the `setTimeout` advance timer),
  * the highlight mapping of `drawFrame`,
  * the ingestion path `analyzeSheetMusic` and the surrounding app status
    handling in `App.tsx`.

Numbers are modelled as rationals (ℚ) for clock times and geometry, and as
reals (ℝ) for synthesized frequencies, which involve a real exponential.
JavaScript timers are modelled by an explicit `Option Timer` field in the
player state; a timer records the delay it was armed with, the frame index
its callback will play, and the playback speed captured by the closure that
armed it (the recursive `playFrame` chain closes over the speed of the render
in which play was pressed).
-/

namespace NoteFlow

/-- A bounding box in the 0–1000 normalized page scale, destructured in the
source as `[ymin, xmin, ymax, xmax]`. -/
structure Box4 where
  ymin : ℚ
  xmin : ℚ
  ymax : ℚ
  xmax : ℚ
deriving DecidableEq

/-- One frame of the analysis result (`FrameData` in `types.ts`, extended with
the `note_coordinates` field the player reads). -/
structure FrameData where
  id : String
  pageIndex : ℕ
  notes : List String
  duration : ℚ
  box_2d : Box4
  note_coordinates : List Box4
deriving DecidableEq

/-- The analysis result returned by the recognition service
(`SheetAnalysisResult` in `types.ts`). -/
structure SheetAnalysisResult where
  tempo : ℚ
  frames : List FrameData
deriving DecidableEq

/-- `AppStatus` from `types.ts`. -/
inductive AppStatus where
  | IDLE
  | ANALYZING
  | READY
  | PLAYING
  | ERROR
deriving DecidableEq

/-- `notes` table of `AudioEngine.playTone`:
`['C','C#','D','D#','E','F','F#','G','G#','A','A#','B']`, as character lists. -/
def notesTable : List (List Char) :=
  [['C'], ['C', '#'], ['D'], ['D', '#'], ['E'], ['F'], ['F', '#'],
   ['G'], ['G', '#'], ['A'], ['A', '#'], ['B']]

/-- Membership in the character class `[a-zA-Z#]` of the pitch regex. -/
def isPitchLetterChar (c : Char) : Bool :=
  ('a' ≤ c && c ≤ 'z') || ('A' ≤ c && c ≤ 'Z') || c == '#'

/-- `parseInt` on a digit string (the `(\d+)` capture group). -/
def digitsToNat (ds : List Char) : ℕ :=
  ds.foldl (fun n c => n * 10 + (c.toNat - 48)) 0

/-- `pitch.match(/^([a-zA-Z#]+)(\d+)$/)`.  The two character classes are
disjoint, so the greedy match succeeds exactly when the string splits into a
nonempty maximal run of `[a-zA-Z#]` characters followed by a nonempty run of
digits reaching the end; backtracking the first group can never help because
the second group would then have to start on a non-digit. -/
def pitchRegexMatch (cs : List Char) : Option (List Char × List Char) :=
  let head := cs.takeWhile isPitchLetterChar
  let tail := cs.dropWhile isPitchLetterChar
  if !head.isEmpty && !tail.isEmpty && tail.all Char.isDigit then
    some (head, tail)
  else
    none

/-- The MIDI number `playTone` computes for a pitch token: regex match, group
one upper-cased and looked up in `notesTable`, then
`(octave + 1) * 12 + semitoneIndex`.  `none` when the regex fails or the
upper-cased letter group is not in the table (the `indexOf === -1` case); in
both cases the source keeps the default 440 Hz frequency. -/
def parsePitchMidi (pitch : String) : Option ℕ :=
  match pitchRegexMatch pitch.toList with
  | none => none
  | some (head, tail) =>
    let note := head.map Char.toUpper
    match notesTable.findIdx? (fun n => n == note) with
    | none => none
    | some semitoneIndex => some ((digitsToNat tail + 1) * 12 + semitoneIndex)

/-- The frequency `playTone` assigns a pitch token:
`440 * 2^((midi - 69) / 12)` when the token parses, 440 otherwise. -/
noncomputable def toneFrequency (pitch : String) : ℝ :=
  match parsePitchMidi pitch with
  | some midi => 440 * (2 : ℝ) ^ (((midi : ℝ) - 69) / 12)
  | none => 440

/-- Is `pat` a prefix of the second list (character-wise)? -/
def isPrefixList : List Char → List Char → Bool
  | [], _ => true
  | _ :: _, [] => false
  | a :: as, b :: bs => a == b && isPrefixList as bs

/-- Is `pat` a contiguous sublist of the second list? -/
def listContainsSub (pat : List Char) : List Char → Bool
  | [] => pat.isEmpty
  | c :: cs => isPrefixList pat (c :: cs) || listContainsSub pat cs

/-- `pitch.toLowerCase().includes('rest')` from `playTone`. -/
def lowerContainsRest (pitch : String) : Bool :=
  listContainsSub ['r', 'e', 's', 't'] (pitch.toList.map Char.toLower)

/-- One audio voice started by `playTone`: an oscillator started with
`osc.start(startTime)` and stopped with `osc.stop(startTime + durationSec + 0.1)`. -/
structure Voice where
  frequency : ℝ
  startTime : ℚ
  stopTime : ℚ

/-- `AudioEngine.playTone(pitch, durationSec, startTime)`: returns the voice
it starts, or `none` when the lower-cased token contains `'rest'`, in which
case the function returns before any parsing or oscillator creation. -/
noncomputable def playTone (pitch : String) (durationSec startTime : ℚ) : Option Voice :=
  if lowerContainsRest pitch then none
  else some ⟨toneFrequency pitch, startTime, startTime + durationSec + 1 / 10⟩

/-- `AudioEngine.playChord(pitches, durationSec)`: records
`now = ctx.currentTime` once and calls `playTone(pitch, durationSec, now)`
for every pitch.  The result is the list of the per-pitch calls' outcomes. -/
noncomputable def playChord (pitches : List String) (durationSec now : ℚ) :
    List (Option Voice) :=
  pitches.map (fun pitch => playTone pitch durationSec now)

/-- `60 / data.tempo` (`beatDurationSec` in `playFrame`). -/
def beatDurationSec (tempo : ℚ) : ℚ := 60 / tempo

/-- `(beatDurationSec * frame.duration) / playbackSpeed`
(`frameDurationSec` in `playFrame`). -/
def frameDurationSec (tempo duration speed : ℚ) : ℚ :=
  beatDurationSec tempo * duration / speed

/-- A live `setTimeout` handle armed by `playFrame`: the millisecond delay it
was armed with, the frame index its callback will play next, and the playback
speed captured by the arming closure (the callbacks recurse through the
`playFrame` of the render in which playback started, so they keep reading
that render's `playbackSpeed`). -/
structure Timer where
  delayMs : ℚ
  target : ℕ
  capturedSpeed : ℚ
deriving DecidableEq

/-- The `MusicPlayer` component state: `isPlaying`, `currentFrameIndex`,
`playbackSpeed`, and the live advance timer held through `timeoutRef`
(`none` when no armed timer is live). -/
structure PlayerState where
  isPlaying : Bool
  currentFrameIndex : ℕ
  playbackSpeed : ℚ
  timeout : Option Timer
deriving DecidableEq

/-- The component's initial state:
`useState(false)`, `useState(0)`, `useState(1.0)`, `useRef(null)`. -/
def initialPlayerState : PlayerState :=
  { isPlaying := false, currentFrameIndex := 0, playbackSpeed := 1, timeout := none }

/-- The chord request `playFrame` hands to the audio engine:
`playChord(frame.notes, frameDurationSec * 0.95)`. -/
structure ChordCall where
  notes : List String
  durationSec : ℚ
deriving DecidableEq

/-- `playFrame(index)`: when `index >= data.frames.length` it sets
`isPlaying` to false and `currentFrameIndex` to 0 and returns (no frame is
read, no chord is played, no timer is armed); otherwise it sets
`currentFrameIndex := index`, computes the frame's wall-clock duration from
the tempo, the frame's beat duration and the closure's playback speed, plays
the chord at 95% of that duration, and arms one `setTimeout` for
`frameDurationSec * 1000` milliseconds whose callback plays `index + 1`.
The second component is the chord request sent to the audio engine, if any. -/
def playFrame (data : SheetAnalysisResult) (speed : ℚ) (index : ℕ)
    (st : PlayerState) : PlayerState × Option ChordCall :=
  if h : index < data.frames.length then
    let frame := data.frames[index]
    let d := frameDurationSec data.tempo frame.duration speed
    ({ st with
        currentFrameIndex := index,
        timeout := some ⟨d * 1000, index + 1, speed⟩ },
     some ⟨frame.notes, d * (95 / 100)⟩)
  else
    ({ st with isPlaying := false, currentFrameIndex := 0 }, none)

/-- The armed advance timer firing: its callback runs `playFrame` on the
timer's target index with the speed its closure captured.  A state with no
live timer has nothing to fire and is left unchanged. -/
def fireTimer (data : SheetAnalysisResult) (st : PlayerState) : PlayerState :=
  match st.timeout with
  | none => st
  | some t => (playFrame data t.capturedSpeed t.target { st with timeout := none }).1

/-- `handlePlayPause`: when playing, set `isPlaying` to false and
`clearTimeout` the pending advance timer; when paused, set `isPlaying` to
true and start `playFrame` at the preserved `currentFrameIndex` with the
current render's playback speed. -/
def handlePlayPause (data : SheetAnalysisResult) (st : PlayerState) : PlayerState :=
  if st.isPlaying then
    { st with isPlaying := false, timeout := none }
  else
    (playFrame data st.playbackSpeed st.currentFrameIndex
      { st with isPlaying := true }).1

/-- `handleStop`: `isPlaying := false`, `currentFrameIndex := 0`,
`clearTimeout`. -/
def handleStop (st : PlayerState) : PlayerState :=
  { st with isPlaying := false, currentFrameIndex := 0, timeout := none }

/-- The speed-down button: `setPlaybackSpeed(Math.max(0.25, playbackSpeed - 0.25))`. -/
def handleSpeedDown (st : PlayerState) : PlayerState :=
  { st with playbackSpeed := max (1 / 4) (st.playbackSpeed - 1 / 4) }

/-- The speed-up button: `setPlaybackSpeed(Math.min(2.0, playbackSpeed + 0.25))`. -/
def handleSpeedUp (st : PlayerState) : PlayerState :=
  { st with playbackSpeed := min 2 (st.playbackSpeed + 1 / 4) }

/-- A rectangle in canvas pixel coordinates. -/
structure Rect where
  x : ℚ
  y : ℚ
  w : ℚ
  h : ℚ
deriving DecidableEq

/-- The canvas size `drawFrame` chooses: a fixed display height of 400 and a
width of `displayHeight * (srcW / srcH)`, where `srcW`/`srcH` scale the crop's
normalized bounds against the image's natural pixel size. -/
def canvasSize (crop : Box4) (imgW imgH : ℚ) : ℚ × ℚ :=
  let srcW := ((crop.xmax - crop.xmin) / 1000) * imgW
  let srcH := ((crop.ymax - crop.ymin) / 1000) * imgH
  let displayHeight : ℚ := 400
  (displayHeight * (srcW / srcH), displayHeight)

/-- The crop-relative linear mapping `drawFrame` applies to one highlight box
before padding: each bound becomes a fraction of the crop's own width/height
and is then scaled by the canvas width/height. -/
def mappedHighlightRect (crop noteBox : Box4) (imgW imgH : ℚ) : Rect :=
  let size := canvasSize crop imgW imgH
  let displayWidth := size.1
  let displayHeight := size.2
  let relX := (noteBox.xmin - crop.xmin) / (crop.xmax - crop.xmin)
  let drawX := relX * displayWidth
  let relY := (noteBox.ymin - crop.ymin) / (crop.ymax - crop.ymin)
  let drawY := relY * displayHeight
  let relW := (noteBox.xmax - noteBox.xmin) / (crop.xmax - crop.xmin)
  let drawW := relW * displayWidth
  let relH := (noteBox.ymax - noteBox.ymin) / (crop.ymax - crop.ymin)
  let drawH := relH * displayHeight
  ⟨drawX, drawY, drawW, drawH⟩

/-- The rectangle `drawFrame` actually draws:
`roundRect(drawX - padding, drawY - padding, Math.max(1, drawW + padding*2),
Math.max(1, drawH + padding*2), r)` with `padding = 2`. -/
def paddedHighlightRect (crop noteBox : Box4) (imgW imgH : ℚ) : Rect :=
  let b := mappedHighlightRect crop noteBox imgW imgH
  ⟨b.x - 2, b.y - 2, max 1 (b.w + 2 * 2), max 1 (b.h + 2 * 2)⟩

/-- `data.frames.map((frame, index) => ...)` with the running index. -/
def mapWithIdx (f : ℕ → FrameData → FrameData) : ℕ → List FrameData → List FrameData
  | _, [] => []
  | i, frame :: rest => f i frame :: mapWithIdx f (i + 1) rest

/-- The local logic of `analyzeSheetMusic` after the network call: throw when
the API key is missing; throw `"No response from AI"` when the response has
no usable text (`parsedResponse = none` also stands for a `JSON.parse`
failure, which the surrounding try/catch rethrows); otherwise assign each
frame a local id `frame-<index>-<Date.now()>` and return the data.  No field
of the parsed result is validated: `tempo` and `frames` are returned as
received. -/
def analyzeSheetMusic (apiKey : Option String)
    (parsedResponse : Option SheetAnalysisResult) (now : ℕ) :
    Except String SheetAnalysisResult :=
  match apiKey with
  | none => Except.error "API Key is missing."
  | some _ =>
    match parsedResponse with
    | none => Except.error "No response from AI"
    | some data =>
      Except.ok
        { data with
            frames := mapWithIdx
              (fun i frame =>
                { frame with id := "frame-" ++ toString i ++ "-" ++ toString now })
              0 data.frames }

/-- `App.handleFilesSelect`'s handling of the analysis outcome: success sets
`sheetData` and `AppStatus.READY`; failure sets `AppStatus.ERROR` and no
session data. -/
def handleAnalysisOutcome (r : Except String SheetAnalysisResult) :
    AppStatus × Option SheetAnalysisResult :=
  match r with
  | Except.ok result => (AppStatus.READY, some result)
  | Except.error _ => (AppStatus.ERROR, none)

/-- A one-frame session used to instantiate the theorems below. -/
def sampleFrame : FrameData :=
  { id := "f0", pageIndex := 0, notes := ["C4"], duration := 1,
    box_2d := ⟨0, 0, 1000, 1000⟩, note_coordinates := [⟨0, 0, 1000, 1000⟩] }

/-- A session at 120 BPM with one frame. -/
def sampleData : SheetAnalysisResult := { tempo := 120, frames := [sampleFrame] }

/-- A frame whose duration is 0. -/
def sampleZeroFrame : FrameData :=
  { id := "z0", pageIndex := 0, notes := ["C4"], duration := 0,
    box_2d := ⟨0, 0, 1000, 1000⟩, note_coordinates := [] }

/-- A session at 60 BPM whose only frame has duration 0. -/
def sampleZeroData : SheetAnalysisResult := { tempo := 60, frames := [sampleZeroFrame] }

/-- A running player state with a live advance timer. -/
def sampleRunningState : PlayerState :=
  { isPlaying := true, currentFrameIndex := 0, playbackSpeed := 1,
    timeout := some ⟨500, 1, 1⟩ }

/-- Claim C1: pausing while the scheduler is Running cancels the pending
advance timer before `handlePlayPause` returns, leaves `currentFrameIndex`
untouched, makes any number of subsequent timer-fire attempts a no-op (so
`currentFrameIndex` never advances, no matter how long one waits past the
frame's original wall-clock duration), and a subsequent play resumes
`playFrame` from the very same frame index. -/
theorem c1_pause_halts (data : SheetAnalysisResult) (st : PlayerState)
    (hplay : st.isPlaying = true) :
    (handlePlayPause data st).timeout = none ∧
    (handlePlayPause data st).currentFrameIndex = st.currentFrameIndex ∧
    (∀ n : ℕ, (fireTimer data)^[n] (handlePlayPause data st) = handlePlayPause data st) ∧
    (st.currentFrameIndex < data.frames.length →
      (handlePlayPause data (handlePlayPause data st)).isPlaying = true ∧
      (handlePlayPause data (handlePlayPause data st)).currentFrameIndex =
        st.currentFrameIndex) := by
  have hp : handlePlayPause data st = { st with isPlaying := false, timeout := none } := by
    simp [handlePlayPause, hplay]
  refine ⟨by rw [hp], by rw [hp], ?_, ?_⟩
  · intro n
    apply Function.iterate_fixed
    rw [hp]
    rfl
  · intro hlt
    rw [hp]
    simp [handlePlayPause, playFrame, hlt]

/-- Witness for C1 at a concrete running one-frame session: pausing clears
the timer, firing it three further times changes nothing, and play resumes
at the preserved index. -/
theorem c1_witness :
    sampleRunningState.isPlaying = true ∧
    (handlePlayPause sampleData sampleRunningState).timeout = none ∧
    (handlePlayPause sampleData sampleRunningState).currentFrameIndex =
      sampleRunningState.currentFrameIndex ∧
    (fireTimer sampleData)^[3] (handlePlayPause sampleData sampleRunningState) =
      handlePlayPause sampleData sampleRunningState ∧
    sampleRunningState.currentFrameIndex < sampleData.frames.length ∧
    (handlePlayPause sampleData (handlePlayPause sampleData sampleRunningState)).isPlaying =
      true :=
  ⟨rfl, (c1_pause_halts sampleData sampleRunningState rfl).1,
   (c1_pause_halts sampleData sampleRunningState rfl).2.1,
   (c1_pause_halts sampleData sampleRunningState rfl).2.2.1 3,
   by decide,
   ((c1_pause_halts sampleData sampleRunningState rfl).2.2.2 (by decide)).1⟩

/-- Claim C2 counterexample: an analysis result with an empty frame sequence
AND tempo 0 — both conditions the claim says must make loading fail — is
accepted without error by the ingestion path, and the app proceeds to
`READY`, creating the playback session. -/
theorem c2_counterexample :
    analyzeSheetMusic (some "key") (some { tempo := 0, frames := [] }) 0 =
      Except.ok { tempo := 0, frames := [] } ∧
    (handleAnalysisOutcome
      (analyzeSheetMusic (some "key") (some { tempo := 0, frames := [] }) 0)).1 =
      AppStatus.READY := by
  constructor
  · rfl
  · rfl

/-- Claim C2 as amended: ingestion fails only when the API key is missing or
the response text is absent/unparseable; no field of a parsed result is
validated — any parsed result, empty frames or non-positive tempo included,
is returned with locally assigned frame ids and moves the app to `READY`,
and the player then mounts at `currentFrameIndex` 0, not playing. -/
theorem c2_load_never_validates (key : String) (data : SheetAnalysisResult) (now : ℕ) :
    analyzeSheetMusic (some key) (some data) now =
      Except.ok
        { data with
            frames := mapWithIdx
              (fun i frame =>
                { frame with id := "frame-" ++ toString i ++ "-" ++ toString now })
              0 data.frames } ∧
    (handleAnalysisOutcome (analyzeSheetMusic (some key) (some data) now)).1 =
      AppStatus.READY ∧
    analyzeSheetMusic (some key) none now = Except.error "No response from AI" ∧
    analyzeSheetMusic none (some data) now = Except.error "API Key is missing." ∧
    initialPlayerState.currentFrameIndex = 0 ∧
    initialPlayerState.isPlaying = false := by
  exact ⟨rfl, rfl, rfl, rfl, rfl, rfl⟩

/-- Claim C3: for positive tempo, duration and speed, the wall-clock duration
the scheduler assigns to a frame is `(60 / tempo) * duration / speed`
seconds; halving the speed multiplier doubles it and doubling the tempo
halves it. -/
theorem c3_frame_duration_formula (tempo duration speed : ℚ)
    (ht : 0 < tempo) (hd : 0 < duration) (hs : 0 < speed) :
    frameDurationSec tempo duration speed = 60 / tempo * duration / speed ∧
    frameDurationSec tempo duration (speed / 2) =
      2 * frameDurationSec tempo duration speed ∧
    frameDurationSec (2 * tempo) duration speed =
      frameDurationSec tempo duration speed / 2 := by
  refine ⟨rfl, ?_, ?_⟩
  · unfold frameDurationSec beatDurationSec
    field_simp
    ring
  · unfold frameDurationSec beatDurationSec
    field_simp
    ring

/-- Witness for C3 at tempo 120 BPM, duration 1 beat, speed 1 (the spec's own
scenario: a half-second frame). -/
theorem c3_witness :
    (0 : ℚ) < 120 ∧ (0 : ℚ) < 1 ∧ (0 : ℚ) < 1 ∧
    (frameDurationSec 120 1 1 = 60 / 120 * 1 / 1 ∧
     frameDurationSec 120 1 (1 / 2) = 2 * frameDurationSec 120 1 1 ∧
     frameDurationSec (2 * 120) 1 1 = frameDurationSec 120 1 1 / 2) :=
  ⟨by norm_num, by norm_num, by norm_num,
   c3_frame_duration_formula 120 1 1 (by norm_num) (by norm_num) (by norm_num)⟩

/-- Claim C4: when the advance timer armed for the final frame fires (its
target equals the frame count), the scheduler stops rather than remaining
Running: `isPlaying` becomes false, `currentFrameIndex` returns to 0, and no
new timer is armed.  In the embedding the guarded branch of `playFrame` is
the only one that reads a frame, so `frames[frames.length]` is never
accessed. -/
theorem c4_final_frame_stops (data : SheetAnalysisResult) (st : PlayerState)
    (t : Timer) (_hne : data.frames ≠ []) (hto : st.timeout = some t)
    (htgt : t.target = data.frames.length) :
    fireTimer data st =
      { st with isPlaying := false, currentFrameIndex := 0, timeout := none } := by
  rw [fireTimer, hto]
  simp [playFrame, htgt]

/-- Witness for C4: a one-frame session whose live timer targets index 1 =
frame count; firing it stops playback and rewinds to frame 0. -/
theorem c4_witness :
    sampleData.frames ≠ [] ∧
    sampleRunningState.timeout = some ⟨500, 1, 1⟩ ∧
    (⟨500, 1, 1⟩ : Timer).target = sampleData.frames.length ∧
    fireTimer sampleData sampleRunningState =
      { sampleRunningState with
          isPlaying := false, currentFrameIndex := 0, timeout := none } :=
  ⟨by decide, rfl, by decide,
   c4_final_frame_stops sampleData sampleRunningState ⟨500, 1, 1⟩ (by decide) rfl (by decide)⟩

/-- Claim C5: the pitch-to-frequency mapping is
`440 * 2^((midi - 69) / 12)` with `midi = (octave + 1) * 12 + semitoneIndex`
over the fixed 12-tone table, so `A4` maps to exactly 440 Hz and `A5` to
880 Hz; any non-rest token that does not parse as a pitch keeps the 440 Hz
fallback, and `playTone` still starts a voice for it rather than failing. -/
theorem c5_pitch_to_frequency :
    toneFrequency "A4" = 440 ∧
    toneFrequency "A5" = 880 ∧
    parsePitchMidi "A4" = some ((4 + 1) * 12 + 9) ∧
    (∀ pitch : String, ∀ midi : ℕ, parsePitchMidi pitch = some midi →
      toneFrequency pitch = 440 * (2 : ℝ) ^ (((midi : ℝ) - 69) / 12)) ∧
    (∀ pitch : String, parsePitchMidi pitch = none → toneFrequency pitch = 440) ∧
    (∀ pitch : String, ∀ durationSec startTime : ℚ, lowerContainsRest pitch = false →
      playTone pitch durationSec startTime =
        some ⟨toneFrequency pitch, startTime, startTime + durationSec + 1 / 10⟩) := by
  have hA4 : parsePitchMidi "A4" = some 69 := by decide
  have hA5 : parsePitchMidi "A5" = some 81 := by decide
  refine ⟨?_, ?_, by decide, ?_, ?_, ?_⟩
  · rw [toneFrequency, hA4]
    show (440 : ℝ) * 2 ^ ((((69 : ℕ) : ℝ) - 69) / 12) = 440
    rw [show (((69 : ℕ) : ℝ) - 69) / 12 = 0 by norm_num, Real.rpow_zero, mul_one]
  · rw [toneFrequency, hA5]
    show (440 : ℝ) * 2 ^ ((((81 : ℕ) : ℝ) - 69) / 12) = 880
    rw [show (((81 : ℕ) : ℝ) - 69) / 12 = 1 by norm_num, Real.rpow_one]
    norm_num
  · intro pitch midi h
    rw [toneFrequency, h]
  · intro pitch h
    rw [toneFrequency, h]
  · intro pitch durationSec startTime h
    simp [playTone, h]

/-- Witness for C5: the unparseable token `Hq7` falls back to 440 Hz, the
parseable non-rest token `A4` starts a voice, and `A5` instantiates the
general frequency formula at MIDI 81. -/
theorem c5_witness :
    parsePitchMidi "Hq7" = none ∧
    toneFrequency "Hq7" = 440 ∧
    lowerContainsRest "A4" = false ∧
    playTone "A4" 1 0 = some ⟨toneFrequency "A4", 0, 0 + 1 + 1 / 10⟩ ∧
    parsePitchMidi "A5" = some 81 ∧
    toneFrequency "A5" = 440 * (2 : ℝ) ^ ((((81 : ℕ) : ℝ) - 69) / 12) :=
  ⟨by decide, c5_pitch_to_frequency.2.2.2.2.1 "Hq7" (by decide),
   by decide, c5_pitch_to_frequency.2.2.2.2.2 "A4" 1 0 (by decide),
   by decide, c5_pitch_to_frequency.2.2.2.1 "A5" 81 (by decide)⟩

/-- Claim C6: `playChord` invokes `playTone` once per pitch token — N calls
for N pitches — and every voice those calls start carries the single shared
start time `now` recorded once from the audio clock, so all non-rest pitches
of a frame start simultaneously with no per-note stagger. -/
theorem c6_chord_simultaneity (pitches : List String) (durationSec now : ℚ) :
    (playChord pitches durationSec now).length = pitches.length ∧
    ((playChord pitches durationSec now).filterMap id).map Voice.startTime =
      List.replicate ((playChord pitches durationSec now).filterMap id).length now := by
  refine ⟨by simp [playChord], ?_⟩
  induction pitches with
  | nil => simp [playChord]
  | cons p ps ih =>
    by_cases h : lowerContainsRest p
    · simpa [playChord, playTone, h] using ih
    · simpa [playChord, playTone, h, List.replicate_succ] using ih

/-- Witness for C6 at the spec's scenario chord `E4`+`G4` plus a rest, with
start time 5. -/
theorem c6_witness :
    (playChord ["E4", "G4", "rest"] 1 5).length = (["E4", "G4", "rest"] : List String).length ∧
    ((playChord ["E4", "G4", "rest"] 1 5).filterMap id).map Voice.startTime =
      List.replicate ((playChord ["E4", "G4", "rest"] 1 5).filterMap id).length 5 :=
  c6_chord_simultaneity ["E4", "G4", "rest"] 1 5

/-- Claim C7: changing the speed multiplier affects only future scheduling
decisions.  Neither speed button touches the already-armed timer (delay,
target and captured speed all unchanged); when that timer fires it still
advances with the speed its arming closure captured, not the new one; and a
newly played session (play pressed while paused) computes its frame
durations with the updated speed. -/
theorem c7_speed_future_only (data : SheetAnalysisResult) (st : PlayerState)
    (t : Timer) (hto : st.timeout = some t) (h : t.target < data.frames.length) :
    (handleSpeedUp st).timeout = st.timeout ∧
    (handleSpeedDown st).timeout = st.timeout ∧
    (handleSpeedUp st).playbackSpeed = min 2 (st.playbackSpeed + 1 / 4) ∧
    (handleSpeedDown st).playbackSpeed = max (1 / 4) (st.playbackSpeed - 1 / 4) ∧
    (fireTimer data (handleSpeedUp st)).timeout =
      some ⟨frameDurationSec data.tempo (data.frames[t.target]).duration t.capturedSpeed * 1000,
            t.target + 1, t.capturedSpeed⟩ ∧
    (st.isPlaying = false →
      handlePlayPause data (handleSpeedUp st) =
        (playFrame data (min 2 (st.playbackSpeed + 1 / 4)) st.currentFrameIndex
          { st with playbackSpeed := min 2 (st.playbackSpeed + 1 / 4),
                    isPlaying := true }).1) := by
  refine ⟨rfl, rfl, rfl, rfl, ?_, ?_⟩
  · have hto2 : (handleSpeedUp st).timeout = some t := hto
    simp only [fireTimer, hto2]
    simp [playFrame, h]
  · intro hp
    simp [handlePlayPause, handleSpeedUp, hp]

/-- Witness for C7 at a concrete running state whose timer targets the
session's only frame. -/
theorem c7_witness :
    sampleRunningState.timeout = some ⟨500, 1, 1⟩ ∧
    (⟨500, 0, 1⟩ : Timer).target < sampleData.frames.length ∧
    (handleSpeedUp sampleRunningState).timeout = sampleRunningState.timeout ∧
    (handleSpeedUp sampleRunningState).playbackSpeed =
      min 2 (sampleRunningState.playbackSpeed + 1 / 4) := by
  have base := c7_speed_future_only sampleData
    { sampleRunningState with timeout := some ⟨500, 0, 1⟩ } ⟨500, 0, 1⟩ rfl (by decide)
  exact ⟨rfl, by decide, rfl, base.2.2.1⟩

/-- Claim C8 counterexample: for a frame whose duration is 0 (tempo 60,
speed 1) the scheduler arms the advance timer with a delay of exactly 0
milliseconds — no positive floor is applied before arming, contradicting the
claim that no zero-length timer is ever armed. -/
theorem c8_counterexample :
    (playFrame sampleZeroData 1 0 initialPlayerState).1.timeout = some ⟨0, 1, 1⟩ := by
  simp [playFrame, sampleZeroData, sampleZeroFrame, frameDurationSec, beatDurationSec,
    initialPlayerState]

/-- Claim C8 as amended: the scheduler applies no clamp at all.  The armed
delay is always exactly `(60 / tempo) * duration / speed * 1000`
milliseconds, and whenever the frame's duration is 0 or negative (with
positive tempo and speed) that armed delay is itself 0 or negative. -/
theorem c8_no_duration_floor (data : SheetAnalysisResult) (speed : ℚ) (index : ℕ)
    (st : PlayerState) (h : index < data.frames.length) :
    (playFrame data speed index st).1.timeout =
      some ⟨frameDurationSec data.tempo (data.frames[index]).duration speed * 1000,
            index + 1, speed⟩ ∧
    (0 < data.tempo → 0 < speed → (data.frames[index]).duration ≤ 0 →
      frameDurationSec data.tempo (data.frames[index]).duration speed * 1000 ≤ 0) := by
  constructor
  · simp [playFrame, h]
  · intro ht hs hd
    have e : frameDurationSec data.tempo (data.frames[index]).duration speed =
        60 * (data.frames[index]).duration / (data.tempo * speed) := by
      rw [frameDurationSec, beatDurationSec]
      ring
    rw [e]
    have hnum : 60 * (data.frames[index]).duration ≤ 0 := by nlinarith
    have hden : 0 < data.tempo * speed := mul_pos ht hs
    have : 60 * (data.frames[index]).duration / (data.tempo * speed) ≤ 0 :=
      div_nonpos_of_nonpos_of_nonneg hnum hden.le
    nlinarith

/-- Witness for C8 at the zero-duration frame of `sampleZeroData`: the armed
delay is non-positive. -/
theorem c8_witness :
    (0 : ℕ) < sampleZeroData.frames.length ∧
    (0 : ℚ) < sampleZeroData.tempo ∧ (0 : ℚ) < 1 ∧
    sampleZeroFrame.duration ≤ 0 ∧
    frameDurationSec sampleZeroData.tempo sampleZeroFrame.duration 1 * 1000 ≤ 0 :=
  ⟨by decide, by norm_num [sampleZeroData], by norm_num,
   by norm_num [sampleZeroData, sampleZeroFrame],
   (c8_no_duration_floor sampleZeroData 1 0 initialPlayerState (by decide)).2
     (by norm_num [sampleZeroData]) (by norm_num)
     (by norm_num [sampleZeroData, sampleZeroFrame])⟩

/-- Claim C9: for a frame region of positive width and height, a highlight
rectangle equal to the full region maps under the crop-relative linear
scaling of `drawFrame` to the full canvas — origin (0, 0), size
(canvasWidth, canvasHeight) — and the drawn rectangle is exactly that box
expanded by the fixed padding of 2 pixels on every side. -/
theorem c9_full_region_highlight (crop : Box4) (imgW imgH : ℚ)
    (hx : crop.xmin < crop.xmax) (hy : crop.ymin < crop.ymax)
    (hw : 0 < imgW) (hh : 0 < imgH) :
    mappedHighlightRect crop crop imgW imgH =
      ⟨0, 0, (canvasSize crop imgW imgH).1, (canvasSize crop imgW imgH).2⟩ ∧
    paddedHighlightRect crop crop imgW imgH =
      ⟨0 - 2, 0 - 2, (canvasSize crop imgW imgH).1 + 4,
       (canvasSize crop imgW imgH).2 + 4⟩ := by
  have hdx : crop.xmax - crop.xmin ≠ 0 := sub_ne_zero.mpr hx.ne'
  have hdy : crop.ymax - crop.ymin ≠ 0 := sub_ne_zero.mpr hy.ne'
  have hmap : mappedHighlightRect crop crop imgW imgH =
      ⟨0, 0, (canvasSize crop imgW imgH).1, (canvasSize crop imgW imgH).2⟩ := by
    rw [mappedHighlightRect]
    simp only [canvasSize]
    congr 1
    · rw [sub_self, zero_div, zero_mul]
    · rw [sub_self, zero_div, zero_mul]
    · rw [div_self hdx, one_mul]
    · rw [div_self hdy, one_mul]
  have hcw : 0 < (canvasSize crop imgW imgH).1 := by
    rw [canvasSize]
    have h1 : 0 < crop.xmax - crop.xmin := sub_pos.mpr hx
    have h2 : 0 < crop.ymax - crop.ymin := sub_pos.mpr hy
    positivity
  refine ⟨hmap, ?_⟩
  rw [paddedHighlightRect, hmap]
  have hmaxw : max 1 ((canvasSize crop imgW imgH).1 + 2 * 2) =
      (canvasSize crop imgW imgH).1 + 4 := by
    rw [max_eq_right]
    · ring
    · nlinarith
  have hmaxh : max 1 ((canvasSize crop imgW imgH).2 + 2 * 2) =
      (canvasSize crop imgW imgH).2 + 4 := by
    rw [max_eq_right]
    · ring
    · rw [canvasSize]
      norm_num
  rw [Rect.mk.injEq]
  exact ⟨rfl, rfl, hmaxw, hmaxh⟩

/-- Witness for C9 at the full-page crop (0,0)–(1000,1000) on a 100×100
image, whose canvas is 400×400. -/
theorem c9_witness :
    (⟨0, 0, 1000, 1000⟩ : Box4).xmin < (⟨0, 0, 1000, 1000⟩ : Box4).xmax ∧
    (⟨0, 0, 1000, 1000⟩ : Box4).ymin < (⟨0, 0, 1000, 1000⟩ : Box4).ymax ∧
    (0 : ℚ) < 100 ∧
    canvasSize ⟨0, 0, 1000, 1000⟩ 100 100 = (400, 400) ∧
    mappedHighlightRect ⟨0, 0, 1000, 1000⟩ ⟨0, 0, 1000, 1000⟩ 100 100 =
      ⟨0, 0, (canvasSize ⟨0, 0, 1000, 1000⟩ 100 100).1,
       (canvasSize ⟨0, 0, 1000, 1000⟩ 100 100).2⟩ :=
  ⟨by norm_num, by norm_num, by norm_num,
   by rw [canvasSize]; norm_num,
   (c9_full_region_highlight ⟨0, 0, 1000, 1000⟩ 100 100
     (by norm_num) (by norm_num) (by norm_num) (by norm_num)).1⟩

/-- Claim C10: silence detection is a case-insensitive substring test, not an
exact match — `playTone` starts no voice for the literal token `rest`, and
likewise for every token whose lower-cased form contains `rest` anywhere,
returning before any pitch parsing. -/
theorem c10_rest_substring_silences :
    (∀ durationSec startTime : ℚ, playTone "rest" durationSec startTime = none) ∧
    ∀ pitch : String, lowerContainsRest pitch = true →
      ∀ durationSec startTime : ℚ, playTone pitch durationSec startTime = none := by
  constructor
  · intro durationSec startTime
    simp [playTone, lowerContainsRest]
    decide
  · intro pitch h durationSec startTime
    simp [playTone, h]

/-- Witness for C10 at the claim's own examples `Crest4` and `ARREST3`. -/
theorem c10_witness :
    lowerContainsRest "Crest4" = true ∧ playTone "Crest4" 1 0 = none ∧
    lowerContainsRest "ARREST3" = true ∧ playTone "ARREST3" 2 5 = none :=
  ⟨by decide, c10_rest_substring_silences.2 "Crest4" (by decide) 1 0,
   by decide, c10_rest_substring_silences.2 "ARREST3" (by decide) 2 5⟩

end NoteFlow
